import Mathlib

/-!
Shallow embedding of the Vaulto-Swap token/liquidity search aggregator.

The definitions below are translated from the TypeScript sources:
  * `src/lib/services/cowApi.ts` (orderbook liquidity: `fetchOrders`,
    `calculateLiquidity`, `fetchPairLiquidity`),
  * `src/lib/uniswap/subgraphs.ts` (`isChainSupported` and the subgraph-id
    registry),
  * `src/app/api/uniswap/liquidity/route.ts` (the `POST` and `GET` handlers
    of the aggregation endpoint),
  * `src/app/components/search/GlobalSearchBar.tsx` (`performSearch` and the
    supersession machinery of the search orchestrator).

JavaScript numbers that only flow through comparisons or are passed along
unchanged are modelled as `Int`; `BigInt` is modelled as `Int` (both are
exact integers); strings are Lean `String`s manipulated through explicit
helpers mirroring the JavaScript string builtins used by the sources.
Network calls are modelled by environments supplying the outcome of each
call; a JavaScript exception is an explicit `JsErr` value.
-/

namespace VaultoSwap

/-- A thrown JavaScript value: either an `Error` object carrying a message, or
some non-`Error` value (the sources test `error instanceof Error`). -/
inductive JsErr where
  | errObj (message : String)
  | nonError
deriving DecidableEq, Repr

/-- The message the route handlers extract from a caught value:
`error instanceof Error ? error.message : "Internal server error"`. -/
def jsErrMessage : JsErr → String
  | JsErr.errObj m => m
  | JsErr.nonError => "Internal server error"

/-- Whitespace as stripped by the JavaScript `trim` used on search queries
(the characters that can actually occur in a query box). -/
def isWS (c : Char) : Bool :=
  c == ' ' || c == '\t' || c == '\n' || c == '\r'

/-- Strip leading and trailing whitespace from a character list. -/
def trimChars (l : List Char) : List Char :=
  ((l.dropWhile isWS).reverse.dropWhile isWS).reverse

/-- Models `s.trim()`. -/
def jsTrim (s : String) : String :=
  String.mk (trimChars s.data)

/-- Models `s.toLowerCase()` (ASCII case folding, which covers the token
symbols, names and hex addresses the sources compare). -/
def jsToLower (s : String) : String :=
  String.mk (s.data.map Char.toLower)

/-- Models `hay.includes(needle)`. -/
def jsIncludes (hay needle : String) : Bool :=
  decide (List.IsInfix needle.data hay.data)

/-- Models `s || dflt` for strings (the empty string is falsy). -/
def jsOr (s dflt : String) : String :=
  if s = "" then dflt else s

/-- Numeric value of a list of decimal digits. -/
def digitsToNat (l : List Char) : Nat :=
  l.foldl (fun n c => n * 10 + (c.toNat - '0'.toNat)) 0

/-- Models `parseInt(s, 10)`: skip leading whitespace, optional sign, then the
longest prefix of decimal digits; `none` models `NaN`. -/
def parseIntJS (s : String) : Option Int :=
  let l := s.data.dropWhile isWS
  let signAndRest : Int × List Char :=
    match l with
    | '-' :: rest => (-1, rest)
    | '+' :: rest => (1, rest)
    | _ => (1, l)
  let ds := signAndRest.2.takeWhile Char.isDigit
  if ds = [] then none else some (signAndRest.1 * (digitsToNat ds : Int))

/-- Models the `BigInt(string)` constructor on the decimal numerals produced
by the orderbook API: surrounding whitespace is allowed, the empty string is
`0`, an optional sign is followed by decimal digits; any other shape throws
(`none`).  The hexadecimal, octal and binary prefixes of the builtin are not
modelled; no order amount uses them. -/
def parseBigIntDec (s : String) : Option Int :=
  match trimChars s.data with
  | [] => some 0
  | '+' :: ds =>
      if ds ≠ [] ∧ ds.all Char.isDigit then some (digitsToNat ds : Int) else none
  | '-' :: ds =>
      if ds ≠ [] ∧ ds.all Char.isDigit then some (-(digitsToNat ds : Int)) else none
  | ds =>
      if ds.all Char.isDigit then some (digitsToNat ds : Int) else none

/-! ## Orderbook liquidity (`src/lib/services/cowApi.ts`) -/

/-- A CoW Protocol order; only the fields the liquidity computation reads are
modelled (the remaining fields are carried opaquely by the real record and
never inspected). -/
structure CowOrder where
  sellToken : String
  buyToken : String
  sellAmount : String
  buyAmount : String
deriving DecidableEq, Repr

/-- Per-direction liquidity aggregate (`LiquidityData`). -/
structure LiquidityData where
  totalLiquidity : String
  orderCount : Nat
  direction : String
deriving DecidableEq, Repr

/-- Pair liquidity for both directions (`PairLiquidity`). -/
structure PairLiquidity where
  tokenA : String
  tokenB : String
  liquidityAtoB : LiquidityData
  liquidityBtoA : LiquidityData
  timestamp : Int
deriving DecidableEq, Repr

/-- The `reduce` over orders in `calculateLiquidity`:
`sum + BigInt(order.sellAmount || '0')`, which throws on a malformed
amount. -/
def sumSellAmounts : List CowOrder → Int → Except JsErr Int
  | [], acc => Except.ok acc
  | o :: rest, acc =>
      match parseBigIntDec (jsOr o.sellAmount "0") with
      | some v => sumSellAmounts rest (acc + v)
      | none => Except.error (JsErr.errObj "Cannot convert string to a BigInt")

/-- Models `calculateLiquidity(orders)`: exact `BigInt` summation of the
`sellAmount` fields, serialized back to a decimal string. -/
def calculateLiquidity (orders : List CowOrder) : Except JsErr LiquidityData :=
  match sumSellAmounts orders 0 with
  | Except.ok tot =>
      Except.ok { totalLiquidity := toString tot
                  orderCount := orders.length
                  direction := "sell" }
  | Except.error e => Except.error e

instance {ε α : Type} [DecidableEq ε] [DecidableEq α] : DecidableEq (Except ε α) := fun x y =>
  match x, y with
  | Except.ok a, Except.ok b =>
      if h : a = b then isTrue (by rw [h]) else isFalse (by simp [h])
  | Except.error a, Except.error b =>
      if h : a = b then isTrue (by rw [h]) else isFalse (by simp [h])
  | Except.ok _, Except.error _ => isFalse (by simp)
  | Except.error _, Except.ok _ => isFalse (by simp)

/-- Outcome of one `fetch` of the orderbook API as seen by `fetchOrders`:
the network call rejects, or an HTTP response arrives whose `ok` flag and
body-parse outcome are given (`Except.error` models `response.json()`
throwing, `none` models a null body, handled by `data || []`). -/
inductive FetchOutcome where
  | netFail
  | httpResp (ok : Bool) (body : Except JsErr (Option (List CowOrder)))
deriving DecidableEq, Repr

/-- Models `fetchOrders`: every HTTP / network / parse failure is caught and
becomes the empty order list; a null body also becomes the empty list. -/
def fetchOrders : FetchOutcome → List CowOrder
  | FetchOutcome.netFail => []
  | FetchOutcome.httpResp false _ => []
  | FetchOutcome.httpResp true (Except.error _) => []
  | FetchOutcome.httpResp true (Except.ok none) => []
  | FetchOutcome.httpResp true (Except.ok (some orders)) => orders

/-- Upstream order-fetch failures: the paths of `fetchOrders` that run its
`catch` block (network rejection, non-2xx status, body-parse failure). -/
def isUpstreamFailure : FetchOutcome → Bool
  | FetchOutcome.netFail => true
  | FetchOutcome.httpResp false _ => true
  | FetchOutcome.httpResp true (Except.error _) => true
  | FetchOutcome.httpResp true (Except.ok _) => false

/-- Models `fetchPairLiquidity(tokenA, tokenB)`: fetch both directions,
aggregate each with `calculateLiquidity`; any throw inside the body (only
`calculateLiquidity` can throw) is caught and yields `null` (`none`).
`oAB` and `oBA` are the outcomes of the two order fetches and `now` is
`Date.now()`. -/
def fetchPairLiquidity (tokenA tokenB : String) (oAB oBA : FetchOutcome)
    (now : Int) : Option PairLiquidity :=
  let ordersAtoB := fetchOrders oAB
  let ordersBtoA := fetchOrders oBA
  match calculateLiquidity ordersAtoB, calculateLiquidity ordersBtoA with
  | Except.ok la, Except.ok lb =>
      some { tokenA := tokenA, tokenB := tokenB
             liquidityAtoB := la, liquidityBtoA := lb, timestamp := now }
  | _, _ => none

/-! ## Supported-chain registry (`src/lib/uniswap/subgraphs.ts`) -/

/-- The `UNISWAP_V3_SUBGRAPH_IDS` record: chain id to subgraph id; an empty
string marks a chain with no public subgraph. -/
def UNISWAP_V3_SUBGRAPH_IDS : List (Int × String) :=
  [ (1, "5zvR82QoaXYFyDEKLZ9t6v9adgnptxYpKpSbxtgVENFV"),
    (10, "Cghf4LfVqPiFw6fp6Y5X5Ubc8UpmUhSfJL82zwiBFLaj"),
    (56, "F85MNzUGYqgSHSHRGgeVMNsdnW1KtZSVgFULumXRZTw2"),
    (137, "3hCPRGf4z88VC5rsBKU5AA9FBBq5nF3jbKJG7VZCbhjm"),
    (42161, "3V7ZY6muhxaQL5qvntX1CFXJ32W7BxXZTGTwmpH5J4t3"),
    (43114, "GVH9h9KZ9CqheUEL93qMbq7QwgoBu32QXQDPR6bev4Eo"),
    (8453, "43Hwfi3dJSoGpyas9VwNoDAv55yjgGrPpNSmbQZArzMG"),
    (42220, "ESdrTJ3twMwWVoQ1hUE2u7PugEHX3QkenudD6aXCkDQ4"),
    (81457, "2LHovKznvo8YmKC9ZprPjsYAZDCc4K5q4AYz8s3cnQn1"),
    (11155111, ""),
    (421614, "") ]

/-- Models `isChainSupported(chainId)`:
`chainId in UNISWAP_V3_SUBGRAPH_IDS && !!UNISWAP_V3_SUBGRAPH_IDS[chainId]`. -/
def isChainSupported (chainId : Int) : Bool :=
  match (UNISWAP_V3_SUBGRAPH_IDS.find? fun e => e.1 == chainId) with
  | some e => e.2 != ""
  | none => false

/-! ## Aggregation endpoint data model (`route.ts`) -/

/-- A token as returned by `searchTokens` (`UniswapToken`). -/
structure UToken where
  address : String
  symbol : String
  name : String
  decimals : Nat
  tvlUSD : Int
  volumeUSD : Int
deriving DecidableEq, Repr

/-- A pool token reference (`UniswapPoolToken`). -/
structure SubTok where
  address : String
  symbol : String
  name : String
  decimals : Nat
deriving DecidableEq, Repr

/-- A pool as returned by `getPoolsForToken` (`UniswapPool`). -/
structure UniswapPool where
  poolAddress : String
  chainId : Int
  feeTierBps : Nat
  liquidity : String
  sqrtPrice : String
  tick : Option Int
  tvlUSD : Int
  volumeUSD : Int
  token0 : SubTok
  token1 : SubTok
deriving DecidableEq, Repr

/-- The `TokenPoolsResult` wrapper returned by `getPoolsForToken`. -/
structure TokenPoolsResult where
  chainId : Int
  tokenAddress : String
  pools : List UniswapPool
deriving DecidableEq, Repr

/-- A pool entry of the API response (the shape `POST` projects out of a
`UniswapPool`). -/
structure PoolOut where
  poolAddress : String
  feeTierBps : Nat
  tvlUSD : Int
  volumeUSD : Int
  token0 : SubTok
  token1 : SubTok
deriving DecidableEq, Repr

/-- A token entry of the API response (`TokenWithPools`). -/
structure TokenWithPools where
  address : String
  symbol : String
  name : String
  decimals : Nat
  tvlUSD : Int
  volumeUSD : Int
  pools : List PoolOut
deriving DecidableEq, Repr

/-- The projection `POST` applies to every fetched pool. -/
def transformPool (p : UniswapPool) : PoolOut :=
  { poolAddress := p.poolAddress
    feeTierBps := p.feeTierBps
    tvlUSD := p.tvlUSD
    volumeUSD := p.volumeUSD
    token0 := { address := p.token0.address, symbol := p.token0.symbol
                name := p.token0.name, decimals := p.token0.decimals }
    token1 := { address := p.token1.address, symbol := p.token1.symbol
                name := p.token1.name, decimals := p.token1.decimals } }

/-- The spread `{ ...token, pools }` building a response entry. -/
def tokenWith (t : UToken) (pools : List PoolOut) : TokenWithPools :=
  { address := t.address, symbol := t.symbol, name := t.name
    decimals := t.decimals, tvlUSD := t.tvlUSD, volumeUSD := t.volumeUSD
    pools := pools }

/-- A JSON response body of the endpoint; each field is optional because the
handlers emit bodies of different shapes (for example the
chainId-not-a-number rejection carries only `error`). -/
structure ApiBody where
  error : Option String
  chainId : Option Int
  tokens : Option (List TokenWithPools)
deriving DecidableEq, Repr

/-- A `NextResponse.json(body, { status })` value. -/
structure HttpResponse where
  status : Nat
  body : ApiBody
deriving DecidableEq, Repr

/-- A JavaScript value of a parsed request-body field (`typeof` dispatch). -/
inductive JVal where
  | jnum (n : Int)
  | jstr (s : String)
  | jother
deriving DecidableEq, Repr

/-- The parsed `POST` body `{ chainId, query }`. -/
structure PostBody where
  chainId : JVal
  query : JVal
deriving DecidableEq, Repr

/-- A call into the indexer layer (`searchTokens` / `getPoolsForToken`); the
subgraph transport is only ever reached through these, so a run that makes
none of these calls never invokes the transport. -/
inductive Call where
  | search (chainId : Int) (query : String) (limit : Nat)
  | pools (chainId : Int) (tokenAddress : String) (limit : Nat)
deriving DecidableEq, Repr

/-- Environment supplying the outcome of each indexer-layer call the endpoint
makes.  `Except.error` models the awaited promise rejecting; the `route.ts`
handlers guard both calls with `try` blocks, so the model keeps the guards
even though the current `searchTokens` / `getPoolsForToken` implementations
catch internally. -/
structure Env where
  search : Int → String → Nat → Except JsErr (List UToken)
  pools : Int → String → Nat → Except JsErr TokenPoolsResult

/-- Insert a token into a tvl-descending list, before the first strictly
smaller entry (so earlier equal-tvl entries stay in front: stability). -/
def insertByTvlDesc (t : UToken) : List UToken → List UToken
  | [] => [t]
  | h :: rest =>
      if t.tvlUSD < h.tvlUSD then h :: insertByTvlDesc t rest else t :: h :: rest

/-- Stable descending sort by `tvlUSD`, modelling
`tokens.sort((a, b) => b.tvlUSD - a.tvlUSD)`. -/
def sortByTvlDesc (l : List UToken) : List UToken :=
  l.foldr insertByTvlDesc []

/-- Per-token enrichment step of `POST`: fetch pools for the token, guarded
by the inner `try` (`catch` returns the token with `pools: []`). -/
def enrichToken (env : Env) (chainId : Int) (t : UToken) : TokenWithPools :=
  match env.pools chainId t.address 10 with
  | Except.ok res => tokenWith t (res.pools.map transformPool)
  | Except.error _ => tokenWith t []

/-- Body of the `POST` handler after a successful body parse, instrumented
with the list of indexer-layer calls it makes.  `Except.error` is a throw
escaping to the outer `catch`. -/
def postGo (env : Env) (body : PostBody) : Except JsErr HttpResponse × List Call :=
  match body.chainId with
  | JVal.jnum n =>
      if isChainSupported n then
        match body.query with
        | JVal.jstr q =>
            (match env.search n q 10 with
             | Except.error e => (Except.error e, [Call.search n q 10])
             | Except.ok toks =>
                 if toks.length = 0 then
                   (Except.ok { status := 200
                                body := { error := none, chainId := some n
                                          tokens := some [] } },
                    [Call.search n q 10])
                 else
                   let sorted := (sortByTvlDesc toks).take 10
                   (Except.ok { status := 200
                                body := { error := none, chainId := some n
                                          tokens := some (sorted.map (enrichToken env n)) } },
                    Call.search n q 10 :: sorted.map fun t => Call.pools n t.address 10))
        | _ =>
            (Except.ok { status := 400
                         body := { error := some "query must be a string"
                                   chainId := none, tokens := none } }, [])
      else
        (Except.ok { status := 400
                     body := { error := some ("Chain " ++ toString n ++
                                 " is not supported for Uniswap v3 queries")
                               chainId := some n, tokens := some [] } }, [])
  | _ =>
      (Except.ok { status := 400
                   body := { error := some "chainId must be a number"
                             chainId := none, tokens := none } }, [])

/-- The 500 response produced by the outer `catch` of both handlers. -/
def serverErrorResponse (e : JsErr) : HttpResponse :=
  { status := 500
    body := { error := some (jsErrMessage e), chainId := some 0
              tokens := some [] } }

/-- Models the `POST` handler.  `req` is the outcome of `request.json()`. -/
def POST (env : Env) (req : Except JsErr PostBody) : HttpResponse × List Call :=
  match req with
  | Except.error e => (serverErrorResponse e, [])
  | Except.ok body =>
      match postGo env body with
      | (Except.ok r, calls) => (r, calls)
      | (Except.error e, calls) => (serverErrorResponse e, calls)

/-- Models the `GET` handler: validate that the `chainId` and `query` query
parameters are present (`null` and the empty string are both falsy) and that
`chainId` parses as an integer, then delegate to `POST` with the parsed
body. -/
def GET (env : Env) (chainIdParam queryParam : Option String) :
    HttpResponse × List Call :=
  match chainIdParam with
  | none =>
      ({ status := 400
         body := { error := some "chainId query parameter is required"
                   chainId := none, tokens := none } }, [])
  | some cp =>
      if cp = "" then
        ({ status := 400
           body := { error := some "chainId query parameter is required"
                     chainId := none, tokens := none } }, [])
      else
        match queryParam with
        | none =>
            ({ status := 400
               body := { error := some "query parameter is required"
                         chainId := none, tokens := none } }, [])
        | some q =>
            if q = "" then
              ({ status := 400
                 body := { error := some "query parameter is required"
                           chainId := none, tokens := none } }, [])
            else
              match parseIntJS cp with
              | none =>
                  ({ status := 400
                     body := { error := some "chainId must be a valid number"
                               chainId := none, tokens := none } }, [])
              | some n =>
                  POST env (Except.ok { chainId := JVal.jnum n, query := JVal.jstr q })

/-! ## Search orchestrator (`GlobalSearchBar.tsx`) -/

/-- Hex digit as accepted by the address pattern `[a-fA-F0-9]`. -/
def isHexChar (c : Char) : Bool :=
  c.isDigit || ('a' ≤ c && c ≤ 'f') || ('A' ≤ c && c ≤ 'F')

/-- Models the test of the regular expression that is anchored at both ends
and accepts `0x` followed by exactly 40 hex characters. -/
def isAddrShape (s : String) : Bool :=
  decide (s.length = 42) && (s.data.take 2 == ['0', 'x']) &&
    (s.data.drop 2).all isHexChar

/-- A token of the static local registry (`@/config/tokens`, consumed as a
lookup table); the fields `performSearch` reads. -/
structure LocalToken where
  address : String
  symbol : String
  name : String
  ticker : Option String
  logoURI : Option String
  isTokenizedStock : Bool
deriving DecidableEq, Repr

/-- The kind tag of a search result. -/
inductive RType where
  | token
  | address
  | transaction
  | aiSuggestion
  | command
deriving DecidableEq, Repr

/-- A `SearchResult` as far as the orchestrator control flow is concerned.
`metaAddress` is `metadata?.address`, the only metadata field the merge and
dedup logic consults; the `action` closure is a UI side effect and is not
modelled. -/
structure SearchResult where
  id : String
  rtype : RType
  title : String
  subtitle : Option String
  icon : Option String
  metaAddress : Option String
deriving DecidableEq, Repr

/-- The response shape of `fetchUniswapLiquidity` (`LiquidityApiResponse`);
that wrapper catches every failure internally and resolves with `tokens: []`
plus an `error` message, so the orchestrator always receives a value of this
shape. -/
structure LiquidityApiResponse where
  chainId : Int
  tokens : List TokenWithPools
  error : Option String
deriving DecidableEq, Repr

/-- Environment of one `performSearch` run: the response of the aggregation
endpoint for the trimmed query, and the local registry for the connected
chain (`getTokensByChain(chainId)`). -/
structure SearchEnv where
  api : String → LiquidityApiResponse
  localTokens : List LocalToken

/-- Models `liquidityTokenToSearchResult`. -/
def liquidityTokenToSearchResult (t : TokenWithPools) : SearchResult :=
  { id := "uniswap-token-" ++ t.address
    rtype := RType.token
    title := t.symbol
    subtitle := some t.name
    icon := none
    metaAddress := some t.address }

/-- The synthetic result pushed for an address-shaped query (built from the
untrimmed query, as in the source). -/
def addressResult (q : String) : SearchResult :=
  { id := "address-" ++ q
    rtype := RType.address
    title := String.mk (q.data.take 6) ++ "..." ++
      String.mk (q.data.drop (q.data.length - 4))
    subtitle := some "View address"
    icon := none
    metaAddress := some q }

/-- The result built for a matching local-registry token. -/
def localTokenToSearchResult (t : LocalToken) : SearchResult :=
  { id := "local-token-" ++ t.address
    rtype := RType.token
    title := t.symbol
    subtitle := some t.name
    icon := t.logoURI
    metaAddress := some t.address }

/-- The fixed command suggestion "Swap tokens". -/
def cmdSwapResult : SearchResult :=
  { id := "cmd-swap", rtype := RType.command, title := "Swap tokens"
    subtitle := some "Start a token swap", icon := none, metaAddress := none }

/-- The fixed command suggestion "View holdings". -/
def cmdHoldingsResult : SearchResult :=
  { id := "cmd-holdings", rtype := RType.command, title := "View holdings"
    subtitle := some "Check your portfolio", icon := none, metaAddress := none }

/-- The local-registry match predicate: the lowercased (untrimmed) query is a
substring of the lowercased symbol, name, address or (when present)
ticker. -/
def localFilterMatch (q : String) (t : LocalToken) : Bool :=
  let ql := jsToLower q
  jsIncludes (jsToLower t.symbol) ql ||
  jsIncludes (jsToLower t.name) ql ||
  jsIncludes (jsToLower t.address) ql ||
  (match t.ticker with
   | some tk => jsIncludes (jsToLower tk) ql
   | none => false)

/-- The dedup filter applied to capped local matches: keep the token only if
no already-collected result carries the same lowercased address. -/
def dedupKeep (acc : List SearchResult) (t : LocalToken) : Bool :=
  ! acc.any fun r => decide (r.metaAddress.map jsToLower = some (jsToLower t.address))

/-- The `error` surfaced from an API response: `if (apiResponse.error)` is a
truthiness test, so an absent or empty message sets nothing. -/
def truthyError (e : Option String) : Option String :=
  match e with
  | some s => if s = "" then none else some s
  | none => none

/-- The remote bucket: aggregation-endpoint tokens converted to results, when
the chain is indexer-supported (step 2 of `performSearch`). -/
def remoteResults (chainId : Int) (env : SearchEnv) (q : String) : List SearchResult :=
  if isChainSupported chainId then
    ((env.api (jsTrim q)).tokens).map liquidityTokenToSearchResult
  else []

/-- The session-level warning surfaced from the remote call. -/
def remoteError (chainId : Int) (env : SearchEnv) (q : String) : Option String :=
  if isChainSupported chainId then truthyError (env.api (jsTrim q)).error
  else none

/-- The local bucket: filter the registry by the query, cap to 5, drop
matches whose lowercased address already appears in `acc` (step 3 of
`performSearch`). -/
def localResults (env : SearchEnv) (q : String) (acc : List SearchResult) :
    List SearchResult :=
  (((env.localTokens.filter (localFilterMatch q)).take 5).filter
      (dedupKeep acc)).map localTokenToSearchResult

/-- Remote bucket followed by deduplicated local bucket. -/
def mergedResults (chainId : Int) (env : SearchEnv) (q : String) : List SearchResult :=
  remoteResults chainId env q ++
    localResults env q (remoteResults chainId env q)

/-- The full result list of a non-address, non-blank query: merged buckets,
with the fixed command suggestions appended when the (untrimmed) query is
shorter than 2 characters (step 4 of `performSearch`). -/
def finalResults (chainId : Int) (env : SearchEnv) (q : String) : List SearchResult :=
  if q.length < 2 then
    mergedResults chainId env q ++ [cmdSwapResult, cmdHoldingsResult]
  else mergedResults chainId env q

/-- Outcome of one `performSearch(q)` run: the rendered results, the session
error, and whether the remote aggregation call and the local registry scan
were performed. -/
structure SearchOutcome where
  results : List SearchResult
  searchError : Option String
  remoteCalled : Bool
  localScanned : Bool
deriving DecidableEq, Repr

/-- Models `performSearch(searchQuery)` run to completion in isolation:
blank queries clear the results; address-shaped queries short-circuit to a
single synthetic result before any remote or local search; otherwise the
remote bucket (on supported chains), the deduplicated local bucket and, for
short queries, the command suggestions are concatenated.  Nothing in the
body can throw, so the surrounding `try` adds no behaviour. -/
def performSearch (chainId : Int) (env : SearchEnv) (q : String) : SearchOutcome :=
  if jsTrim q = "" then
    { results := [], searchError := none, remoteCalled := false, localScanned := false }
  else if isAddrShape (jsTrim q) then
    { results := [addressResult q], searchError := none
      remoteCalled := false, localScanned := false }
  else
    { results := finalResults chainId env q
      searchError := remoteError chainId env q
      remoteCalled := isChainSupported chainId
      localScanned := true }

/-! ## Supersession machinery of the orchestrator

`performSearch` aborts the previous `AbortController` and installs a fresh
one before awaiting the network call, but the new controller's signal is
neither passed to `fetch` nor inspected when the response arrives; the
continuation after the `await` stores its results unconditionally.  The
session machine below makes that observable: `issueSearch` is the
synchronous prelude of an invocation (up to the `await`), `arriveSearch` is
its continuation running when the response arrives. -/

/-- The mutable search session state touched by `performSearch`. -/
structure Session where
  results : List SearchResult
  searchError : Option String
  isLoading : Bool
  nextGen : Nat
  currentGen : Option Nat
  abortedGens : List Nat
deriving DecidableEq, Repr

/-- The initial session state. -/
def initialSession : Session :=
  { results := [], searchError := none, isLoading := false
    nextGen := 0, currentGen := none, abortedGens := [] }

/-- An in-flight invocation suspended at `await fetchUniswapLiquidity`: the
generation of the `AbortController` it installed and the raw query its
closure captured. -/
structure Pending where
  gen : Nat
  rawQuery : String
deriving DecidableEq, Repr

/-- Synchronous prelude of `performSearch(q)` on a supported chain: clear a
blank query; otherwise mark loading, abort the previous controller, install
a fresh one, then either complete synchronously (address-shaped query) or
suspend at the network call, returning the pending invocation; on an
unsupported chain there is no `await` and the run completes synchronously
with the local bucket only. -/
def issueSearch (chainId : Int) (env : SearchEnv) (st : Session) (q : String) :
    Session × Option Pending :=
  if jsTrim q = "" then
    ({ st with results := [], searchError := none }, none)
  else
    let st' : Session :=
      { st with
        isLoading := true
        searchError := none
        abortedGens :=
          match st.currentGen with
          | some g => g :: st.abortedGens
          | none => st.abortedGens
        currentGen := some st.nextGen
        nextGen := st.nextGen + 1 }
    if isAddrShape (jsTrim q) then
      ({ st' with results := [addressResult q], isLoading := false }, none)
    else if isChainSupported chainId then
      (st', some { gen := st.nextGen, rawQuery := q })
    else
      ({ st' with results := finalResults chainId env q, isLoading := false }, none)

/-- Continuation of a suspended invocation when its response arrives.  As in
the source, the handler never compares `p.gen` with `currentGen` or
`abortedGens`: the fetched results are merged with the local bucket and
stored whether or not the invocation has been superseded. -/
def arriveSearch (env : SearchEnv) (st : Session) (p : Pending)
    (resp : LiquidityApiResponse) : Session :=
  let remote := resp.tokens.map liquidityTokenToSearchResult
  let locals := localResults env p.rawQuery remote
  let merged := remote ++ locals
  let final :=
    if p.rawQuery.length < 2 then merged ++ [cmdSwapResult, cmdHoldingsResult]
    else merged
  { st with
    results := final
    searchError :=
      match truthyError resp.error with
      | some e => some e
      | none => st.searchError
    isLoading := false }

/-! ## Theorems -/

/-- Folding the orders adds the exact integer values of their sell amounts to
the accumulator. -/
theorem sumSellAmounts_ok (orders : List CowOrder) (vals : List Int) (acc : Int)
    (h : orders.map (fun o => parseBigIntDec (jsOr o.sellAmount "0")) = vals.map some) :
    sumSellAmounts orders acc = Except.ok (acc + vals.sum) := by
  induction orders generalizing vals acc with
  | nil =>
    cases vals with
    | nil => simp [sumSellAmounts]
    | cons v vs => simp at h
  | cons o rest ih =>
    cases vals with
    | nil => simp at h
    | cons v vs =>
      simp only [List.map_cons, List.cons.injEq] at h
      obtain ⟨h1, h2⟩ := h
      simp only [sumSellAmounts, h1]
      rw [ih vs (acc + v) h2]
      simp [add_assoc]

/-- C9: `calculateLiquidity` is exact for arbitrarily large sums — for every
list of orders whose sell amounts denote the integers `vals`, the returned
`totalLiquidity` is the decimal serialization of the exact integer sum of
`vals`, and `orderCount` is the number of orders. -/
theorem calculateLiquidity_exact (orders : List CowOrder) (vals : List Int)
    (h : orders.map (fun o => parseBigIntDec (jsOr o.sellAmount "0")) = vals.map some) :
    calculateLiquidity orders =
      Except.ok { totalLiquidity := toString vals.sum
                  orderCount := orders.length
                  direction := "sell" } := by
  rw [calculateLiquidity, sumSellAmounts_ok orders vals 0 h]
  simp

/-- Two orders whose sell amounts straddle the double-precision limit. -/
def c9Orders : List CowOrder :=
  [ { sellToken := "0xaaa1", buyToken := "0xbbb2"
      sellAmount := "9007199254740993", buyAmount := "1" },
    { sellToken := "0xaaa1", buyToken := "0xbbb2"
      sellAmount := "1", buyAmount := "1" } ]

/-- C9 witness: sell amounts 9007199254740993 and 1 (both beyond exact
`Float` addition) sum to exactly "9007199254740994". -/
theorem calculateLiquidity_exact_witness :
    (c9Orders.map (fun o => parseBigIntDec (jsOr o.sellAmount "0")) =
      ([9007199254740993, 1] : List Int).map some) ∧
    calculateLiquidity c9Orders =
      Except.ok { totalLiquidity := "9007199254740994"
                  orderCount := 2, direction := "sell" } := by
  refine ⟨by decide, ?_⟩
  have h := calculateLiquidity_exact c9Orders [9007199254740993, 1] (by decide)
  exact h.trans (by decide)

/-- An upstream failure makes `fetchOrders` return the empty list. -/
theorem fetchOrders_of_failure (o : FetchOutcome) (h : isUpstreamFailure o = true) :
    fetchOrders o = [] := by
  cases o with
  | netFail => rfl
  | httpResp ok body =>
    cases ok with
    | false => rfl
    | true =>
      cases body with
      | error e => rfl
      | ok l => simp [isUpstreamFailure] at h

/-- `calculateLiquidity` on parseable orders never throws. -/
theorem calculateLiquidity_ok_of_parse (orders : List CowOrder)
    (h : ∀ o ∈ orders, (parseBigIntDec (jsOr o.sellAmount "0")).isSome) :
    ∃ d, calculateLiquidity orders = Except.ok d := by
  have key : ∀ (l : List CowOrder), (∀ o ∈ l, (parseBigIntDec (jsOr o.sellAmount "0")).isSome) →
      ∀ acc : Int, ∃ t, sumSellAmounts l acc = Except.ok t := by
    intro l hl
    induction l with
    | nil => intro acc; exact ⟨acc, rfl⟩
    | cons o rest ih =>
      intro acc
      obtain ⟨v, hv⟩ := Option.isSome_iff_exists.mp (hl o (List.mem_cons_self o rest))
      obtain ⟨t, ht⟩ := ih (fun x hx => hl x (List.mem_cons_of_mem o hx)) (acc + v)
      exact ⟨t, by simp only [sumSellAmounts, hv, ht]⟩
  obtain ⟨t, ht⟩ := key orders h 0
  exact ⟨_, by rw [calculateLiquidity, ht]⟩

/-- C10: an upstream orderbook fetch failure never yields a null aggregate —
when the A-to-B order fetch fails upstream (and the other direction carries
well-formed amounts), `fetchPairLiquidity` returns a non-null `PairLiquidity`
whose affected direction reports totalLiquidity "0" and orderCount 0,
indistinguishable at this interface from genuinely zero liquidity. -/
theorem upstream_failure_zero_liquidity (tA tB : String) (oAB oBA : FetchOutcome)
    (now : Int)
    (h1 : isUpstreamFailure oAB = true)
    (h2 : ∀ o ∈ fetchOrders oBA, (parseBigIntDec (jsOr o.sellAmount "0")).isSome) :
    ∃ p, fetchPairLiquidity tA tB oAB oBA now = some p ∧
      p.liquidityAtoB = { totalLiquidity := "0", orderCount := 0, direction := "sell" } ∧
      p.tokenA = tA ∧ p.tokenB = tB ∧ p.timestamp = now := by
  have hA : fetchOrders oAB = [] := fetchOrders_of_failure oAB h1
  have hnil : calculateLiquidity [] =
      Except.ok { totalLiquidity := "0", orderCount := 0, direction := "sell" } := by
    decide
  obtain ⟨d, hd⟩ := calculateLiquidity_ok_of_parse (fetchOrders oBA) h2
  refine ⟨{ tokenA := tA, tokenB := tB
            liquidityAtoB := { totalLiquidity := "0", orderCount := 0, direction := "sell" }
            liquidityBtoA := d, timestamp := now }, ?_, rfl, rfl, rfl, rfl⟩
  rw [fetchPairLiquidity, hA, hnil, hd]

/-- A rejected HTTP response (status 500) for the A-to-B direction. -/
def c10FailAB : FetchOutcome := FetchOutcome.httpResp false (Except.error JsErr.nonError)

/-- A successful response carrying one order for the B-to-A direction. -/
def c10OkBA : FetchOutcome :=
  FetchOutcome.httpResp true (Except.ok (some
    [ { sellToken := "0xbbb2", buyToken := "0xaaa1"
        sellAmount := "42", buyAmount := "41" } ]))

/-- C10 witness: a concrete failed fetch in one direction still produces a
non-null pair aggregate with a zero affected direction. -/
theorem upstream_failure_zero_liquidity_witness :
    isUpstreamFailure c10FailAB = true ∧
    (∀ o ∈ fetchOrders c10OkBA, (parseBigIntDec (jsOr o.sellAmount "0")).isSome) ∧
    ∃ p, fetchPairLiquidity "0xaaa1" "0xbbb2" c10FailAB c10OkBA 1700000000 = some p ∧
      p.liquidityAtoB = { totalLiquidity := "0", orderCount := 0, direction := "sell" } ∧
      p.tokenA = "0xaaa1" ∧ p.tokenB = "0xbbb2" ∧ p.timestamp = 1700000000 :=
  ⟨by decide, by decide,
    upstream_failure_zero_liquidity "0xaaa1" "0xbbb2" c10FailAB c10OkBA 1700000000
      (by decide) (by decide)⟩

/-- A concrete environment for instantiating endpoint theorems. -/
def envW : Env :=
  { search := fun _ _ _ => Except.ok []
    pools := fun _ addr _ => Except.ok { chainId := 1, tokenAddress := addr, pools := [] } }

/-- C6: a numeric chain id that is not supported (absent from the registry or
having an empty subgraph id) makes `POST` answer 400 with `tokens: []`, and
no indexer-layer call — hence no subgraph transport call — is made. -/
theorem unsupported_chain_rejected (env : Env) (body : PostBody) (n : Int)
    (hn : body.chainId = JVal.jnum n) (hns : isChainSupported n = false) :
    POST env (Except.ok body) =
      ({ status := 400
         body := { error := some ("Chain " ++ toString n ++
                     " is not supported for Uniswap v3 queries")
                   chainId := some n, tokens := some [] } }, []) := by
  cases body with
  | mk cid q =>
    simp only at hn
    subst hn
    simp [POST, postGo, hns]

/-- C6 witness: chain 11155111 (Sepolia) is in the registry with an empty
subgraph id; the endpoint rejects it without touching the transport. -/
theorem unsupported_chain_rejected_witness :
    isChainSupported 11155111 = false ∧
    POST envW (Except.ok { chainId := JVal.jnum 11155111, query := JVal.jstr "USDC" }) =
      ({ status := 400
         body := { error := some ("Chain " ++ toString (11155111 : Int) ++
                     " is not supported for Uniswap v3 queries")
                   chainId := some 11155111, tokens := some [] } }, []) :=
  ⟨by decide,
   unsupported_chain_rejected envW
     { chainId := JVal.jnum 11155111, query := JVal.jstr "USDC" } 11155111 rfl (by decide)⟩

/-- The outcome of a request whose body fails to parse: `request.json()`
throws a syntax error carrying a diagnostic message. -/
def c3Req : Except JsErr PostBody :=
  Except.error (JsErr.errObj "Unexpected end of JSON input")

/-- C3: the outer catch of `POST` does answer 500 with `tokens: []`, but it
copies the internal error message verbatim into the response body instead of
a generic non-leaking message, contradicting the adjacent comment about not
leaking internal error details. -/
theorem internalError_message_leak :
    POST envW c3Req =
      ({ status := 500
         body := { error := some "Unexpected end of JSON input"
                   chainId := some 0, tokens := some [] } }, []) ∧
    (serverErrorResponse (JsErr.errObj "Unexpected end of JSON input")).body.error ≠
      some "Internal server error" := by
  exact ⟨by decide, by decide⟩

/-- C4: `GET` is a thin adapter over `POST`.  Whenever its own validation
passes (both parameters present and non-empty, `chainId` parseable), the
response and the indexer calls are identical to those of `POST` on the
parsed body; on any validation violation `GET` answers 400 without calling
the indexer. -/
theorem get_post_equivalence :
    (∀ (env : Env) (cp q : String) (n : Int), cp ≠ "" → q ≠ "" →
      parseIntJS cp = some n →
      GET env (some cp) (some q) =
        POST env (Except.ok { chainId := JVal.jnum n, query := JVal.jstr q })) ∧
    (∀ (env : Env) (cpo qo : Option String),
      (cpo = none ∨ cpo = some "" ∨ qo = none ∨ qo = some "" ∨
        ∃ cp, cpo = some cp ∧ parseIntJS cp = none) →
      (GET env cpo qo).1.status = 400 ∧ (GET env cpo qo).2 = []) := by
  constructor
  · intro env cp q n hcp hq hp
    simp [GET, hcp, hq, hp]
  · intro env cpo qo h
    cases cpo with
    | none => simp [GET]
    | some cp =>
      by_cases hcp : cp = ""
      · simp [GET, hcp]
      · cases qo with
        | none => simp [GET, hcp]
        | some q =>
          by_cases hq : q = ""
          · simp [GET, hcp, hq]
          · rcases h with h | h | h | h | ⟨cp', hcp', hp⟩
            · exact absurd h (by simp)
            · exact absurd (Option.some.inj h) hcp
            · exact absurd h (by simp)
            · exact absurd (Option.some.inj h) hq
            · have : cp' = cp := (Option.some.inj hcp').symm
              subst this
              simp [GET, hcp, hq, hp]

/-- C4 witness: a parseable `GET` request coincides with `POST` on the parsed
body, and a `GET` without a chainId parameter is a 400 with no indexer
call. -/
theorem get_post_equivalence_witness :
    parseIntJS "1" = some 1 ∧
    GET envW (some "1") (some "USDC") =
      POST envW (Except.ok { chainId := JVal.jnum 1, query := JVal.jstr "USDC" }) ∧
    (GET envW none (some "USDC")).1.status = 400 ∧ (GET envW none (some "USDC")).2 = [] :=
  ⟨by decide,
   get_post_equivalence.1 envW "1" "USDC" 1 (by decide) (by decide) (by decide),
   (get_post_equivalence.2 envW none (some "USDC") (Or.inl rfl)).1,
   (get_post_equivalence.2 envW none (some "USDC") (Or.inl rfl)).2⟩

/-- Enrichment never changes a token address. -/
theorem enrichToken_address (env : Env) (n : Int) (t : UToken) :
    (enrichToken env n t).address = t.address := by
  unfold enrichToken
  cases env.pools n t.address 10 <;> rfl

/-- C8: per-token enrichment failure is isolated — on a successful search the
request succeeds with exactly the tokens of the (sorted, capped) batch, and
every token whose pool fetch failed is still present, carrying `pools: []`. -/
theorem pool_failure_isolated (env : Env) (n : Int) (q : String) (toks : List UToken)
    (hsup : isChainSupported n = true)
    (hs : env.search n q 10 = Except.ok toks)
    (hne : toks ≠ []) :
    (POST env (Except.ok { chainId := JVal.jnum n, query := JVal.jstr q })).1.status = 200 ∧
    (POST env (Except.ok { chainId := JVal.jnum n, query := JVal.jstr q })).1.body.tokens =
      some (((sortByTvlDesc toks).take 10).map (enrichToken env n)) ∧
    ((((sortByTvlDesc toks).take 10).map (enrichToken env n)).map fun t => t.address) =
      (((sortByTvlDesc toks).take 10).map fun t => t.address) ∧
    ∀ tw ∈ ((sortByTvlDesc toks).take 10).map (enrichToken env n),
      (∃ e, env.pools n tw.address 10 = Except.error e) → tw.pools = [] := by
  have hlen : ¬ toks.length = 0 := fun hl => hne (List.length_eq_zero.mp hl)
  have hpost :
      POST env (Except.ok { chainId := JVal.jnum n, query := JVal.jstr q }) =
        ({ status := 200
           body := { error := none, chainId := some n
                     tokens := some (((sortByTvlDesc toks).take 10).map (enrichToken env n)) } },
         Call.search n q 10 ::
           ((sortByTvlDesc toks).take 10).map fun t => Call.pools n t.address 10) := by
    simp [POST, postGo, hsup, hs, hlen]
  refine ⟨by rw [hpost], by rw [hpost], ?_, ?_⟩
  · rw [List.map_map]
    exact List.map_congr_left fun t _ => enrichToken_address env n t
  · intro tw htw ⟨e, he⟩
    obtain ⟨t, _, rfl⟩ := List.mem_map.mp htw
    rw [enrichToken_address env n t] at he
    unfold enrichToken
    rw [he]
    rfl

/-- The tokens of the two-token batch exercising enrichment isolation. -/
def c8TokA : UToken :=
  { address := "0xaaa", symbol := "AAA", name := "Token A"
    decimals := 18, tvlUSD := 100, volumeUSD := 5 }

/-- Second token of the batch; its pool fetch will fail. -/
def c8TokB : UToken :=
  { address := "0xbbb", symbol := "BBB", name := "Token B"
    decimals := 18, tvlUSD := 50, volumeUSD := 5 }

/-- A pool returned for the first token. -/
def c8Pool : UniswapPool :=
  { poolAddress := "0xpool1", chainId := 1, feeTierBps := 500
    liquidity := "123", sqrtPrice := "456", tick := some 0
    tvlUSD := 60, volumeUSD := 7
    token0 := { address := "0xaaa", symbol := "AAA", name := "Token A", decimals := 18 }
    token1 := { address := "0xbbb", symbol := "BBB", name := "Token B", decimals := 18 } }

/-- Environment where the search finds two tokens and the pool fetch fails
for the second one only. -/
def c8Env : Env :=
  { search := fun _ _ _ => Except.ok [c8TokA, c8TokB]
    pools := fun _ addr _ =>
      if addr = "0xbbb" then Except.error (JsErr.errObj "subgraph down")
      else Except.ok { chainId := 1, tokenAddress := addr, pools := [c8Pool] } }

/-- C8 witness: in the concrete 2-token batch with one pool-fetch failure,
the response is a 200 containing both tokens, the failing one with
`pools: []`. -/
theorem pool_failure_isolated_witness :
    isChainSupported 1 = true ∧ c8Env.search 1 "token" 10 = Except.ok [c8TokA, c8TokB] ∧
    (POST c8Env (Except.ok { chainId := JVal.jnum 1, query := JVal.jstr "token" })).1.status = 200 ∧
    (POST c8Env (Except.ok { chainId := JVal.jnum 1, query := JVal.jstr "token" })).1.body.tokens =
      some [tokenWith c8TokA [transformPool c8Pool], tokenWith c8TokB []] := by
  have h := pool_failure_isolated c8Env 1 "token" [c8TokA, c8TokB]
    (by decide) (by decide) (by decide)
  refine ⟨by decide, by decide, h.1, ?_⟩
  rw [h.2.1]
  decide

/-- Trimming never lengthens a string. -/
theorem jsTrim_length_le (s : String) : (jsTrim s).length ≤ s.length := by
  show (trimChars s.data).length ≤ s.data.length
  unfold trimChars
  calc (((s.data.dropWhile isWS).reverse.dropWhile isWS)).reverse.length
      = ((s.data.dropWhile isWS).reverse.dropWhile isWS).length := by
        rw [List.length_reverse]
    _ ≤ (s.data.dropWhile isWS).reverse.length :=
        (List.dropWhile_sublist isWS).length_le
    _ = (s.data.dropWhile isWS).length := by rw [List.length_reverse]
    _ ≤ s.data.length := (List.dropWhile_sublist isWS).length_le

/-- A string shorter than two characters is never address-shaped. -/
theorem short_not_addr (s : String) (h : s.length < 2) : isAddrShape s = false := by
  have h42 : s.length ≠ 42 := by omega
  simp [isAddrShape, h42]

/-- Hex characters are not whitespace. -/
theorem hex_not_ws (c : Char) (h : isHexChar c = true) : isWS c = false := by
  cases hws : isWS c with
  | false => rfl
  | true =>
    exfalso
    simp only [isWS, Bool.or_eq_true, beq_iff_eq] at hws
    rcases hws with ((rfl | rfl) | rfl) | rfl <;> exact absurd h (by decide)

/-- An address-shaped string is invariant under trimming: it starts with a
non-whitespace character and ends with a hex character. -/
theorem addr_trim_id (s : String) (h : isAddrShape s = true) : jsTrim s = s := by
  simp only [isAddrShape, Bool.and_eq_true, decide_eq_true_eq, beq_iff_eq,
    List.all_eq_true] at h
  obtain ⟨⟨hlen, htake⟩, hall⟩ := h
  obtain ⟨rest, hd⟩ : ∃ rest, s.data = '0' :: 'x' :: rest := by
    cases hdata : s.data with
    | nil => rw [hdata] at htake; simp at htake
    | cons a t =>
      cases t with
      | nil => rw [hdata] at htake; simp at htake
      | cons b r =>
        rw [hdata] at htake
        simp at htake
        obtain ⟨ha, hb⟩ := htake
        subst ha
        subst hb
        exact ⟨r, rfl⟩
  have hrlen : rest.length = 40 := by
    have : s.data.length = 42 := hlen
    rw [hd] at this
    simpa using this
  have hrest_hex : ∀ c ∈ rest, isHexChar c = true := by
    intro c hc
    exact hall c (by rw [hd]; exact hc)
  obtain ⟨c, t, hrev⟩ : ∃ c t, rest.reverse = c :: t := by
    cases hr : rest.reverse with
    | nil =>
      exfalso
      have : rest = [] := by simpa using congrArg List.reverse hr
      rw [this] at hrlen
      simp at hrlen
    | cons c t => exact ⟨c, t, rfl⟩
  have hc_mem : c ∈ rest := by
    have : c ∈ rest.reverse := by rw [hrev]; exact List.mem_cons_self c t
    simpa using this
  have hcws : isWS c = false := hex_not_ws c (hrest_hex c hc_mem)
  have step1 : s.data.dropWhile isWS = s.data := by
    have h0 : isWS '0' = false := by decide
    rw [hd, List.dropWhile_cons, h0]
    simp
  have step2 : s.data.reverse.dropWhile isWS = s.data.reverse := by
    have hrw : s.data.reverse = c :: (t ++ ['x', '0']) := by
      rw [hd]
      simp [hrev]
    rw [hrw, List.dropWhile_cons, hcws]
    simp
  have : trimChars s.data = s.data := by
    unfold trimChars
    rw [step1, step2, List.reverse_reverse]
  show String.mk (trimChars s.data) = s
  rw [this]

/-- C7: an address-shaped query short-circuits `performSearch` to exactly one
result, of kind `address`, with no remote aggregation call and no local
registry scan. -/
theorem address_query_short_circuit (chainId : Int) (env : SearchEnv) (q : String)
    (h : isAddrShape q = true) :
    performSearch chainId env q =
      { results := [addressResult q], searchError := none
        remoteCalled := false, localScanned := false } ∧
    (addressResult q).rtype = RType.address := by
  have htrim : jsTrim q = q := addr_trim_id q h
  have hqne : ¬ q = "" := by
    intro h0
    subst h0
    exact absurd h (by decide)
  have hne : ¬ jsTrim q = "" := by rw [htrim]; exact hqne
  refine ⟨?_, rfl⟩
  simp [performSearch, hne, htrim, h, hqne]

/-- C7 witness: a concrete 42-character hex address query. -/
theorem address_query_short_circuit_witness :
    isAddrShape "0xA0b86991c6218b36c1d19D4a2e9Eb0cE3606eB48" = true ∧
    performSearch 1
        { api := fun _ => { chainId := 1, tokens := [], error := none }, localTokens := [] }
        "0xA0b86991c6218b36c1d19D4a2e9Eb0cE3606eB48" =
      { results := [addressResult "0xA0b86991c6218b36c1d19D4a2e9Eb0cE3606eB48"]
        searchError := none, remoteCalled := false, localScanned := false } :=
  ⟨by decide,
   (address_query_short_circuit 1
     { api := fun _ => { chainId := 1, tokens := [], error := none }, localTokens := [] }
     "0xA0b86991c6218b36c1d19D4a2e9Eb0cE3606eB48" (by decide)).1⟩

/-- A search environment whose local registry holds one token matching the
letter U. -/
def c2Env : SearchEnv :=
  { api := fun _ => { chainId := 1, tokens := [], error := none }
    localTokens :=
      [ { address := "0xdef1", symbol := "USDC", name := "USD Coin"
          ticker := none, logoURI := none, isTokenizedStock := false } ] }

/-- C2 counterexample: for the empty query the orchestrator clears the result
list — it does not end with the command suggestions — and for the 1-character
query U on a supported chain the result list does contain a token entry
(a matching local-registry token), so neither part of the claim holds as
stated. -/
theorem empty_query_counterexample :
    (performSearch 1 c2Env "").results = [] ∧
    ¬ List.IsSuffix [cmdSwapResult, cmdHoldingsResult] (performSearch 1 c2Env "").results ∧
    ((performSearch 1 c2Env "U").results.any fun r => r.rtype == RType.token) = true := by
  refine ⟨by decide, ?_, by decide⟩
  intro ⟨t, ht⟩
  have : (performSearch 1 c2Env "").results = [] := by decide
  rw [this] at ht
  simp at ht

/-- C2 amended: a blank query clears the result list outright; for every
non-blank query shorter than 2 characters on a supported chain, the result
list ends with the fixed command suggestions (token entries may precede
them). -/
theorem short_query_command_suggestions :
    (∀ (chainId : Int) (env : SearchEnv) (q : String), jsTrim q = "" →
      (performSearch chainId env q).results = []) ∧
    (∀ (chainId : Int) (env : SearchEnv) (q : String),
      isChainSupported chainId = true → jsTrim q ≠ "" → q.length < 2 →
      List.IsSuffix [cmdSwapResult, cmdHoldingsResult]
        (performSearch chainId env q).results) := by
  constructor
  · intro chainId env q h
    simp [performSearch, h]
  · intro chainId env q _ hne hlen
    have haddr : isAddrShape (jsTrim q) = false :=
      short_not_addr (jsTrim q) (lt_of_le_of_lt (jsTrim_length_le q) hlen)
    have hres : (performSearch chainId env q).results = finalResults chainId env q := by
      simp [performSearch, hne, haddr]
    rw [hres, finalResults, if_pos hlen]
    exact ⟨mergedResults chainId env q, rfl⟩

/-- C2 witness: a whitespace query clears the results; the query U yields a
list ending with the two command suggestions. -/
theorem short_query_command_suggestions_witness :
    jsTrim " " = "" ∧ (performSearch 1 c2Env " ").results = [] ∧
    isChainSupported 1 = true ∧ jsTrim "U" ≠ "" ∧ "U".length < 2 ∧
    List.IsSuffix [cmdSwapResult, cmdHoldingsResult] (performSearch 1 c2Env "U").results :=
  ⟨by decide, short_query_command_suggestions.1 1 c2Env " " (by decide),
   by decide, by decide, by decide,
   short_query_command_suggestions.2 1 c2Env "U" (by decide) (by decide) (by decide)⟩

/-- Any surviving local result has a lowercased address distinct from every
result already collected: the dedup filter dropped everything else. -/
theorem localResults_dedup (env : SearchEnv) (q : String) (acc : List SearchResult)
    (r : SearchResult) (hr : r ∈ localResults env q acc) :
    ∀ s ∈ acc, s.metaAddress.map jsToLower ≠ r.metaAddress.map jsToLower := by
  obtain ⟨t, ht, rfl⟩ := List.mem_map.mp hr
  intro s hs heq
  have hkeep : dedupKeep acc t = true := (List.mem_filter.mp ht).2
  rw [dedupKeep] at hkeep
  have hany : (acc.any fun s =>
      decide (s.metaAddress.map jsToLower = some (jsToLower t.address))) = false := by
    simpa using hkeep
  have hnone := (List.any_eq_false.mp hany) s hs
  apply hnone
  rw [decide_eq_true_eq]
  simpa [localTokenToSearchResult] using heq

/-- C5: when the aggregation response carries an address (lowercased) exactly
once and the local registry also knows it, the merged result list carries it
exactly once, the surviving occurrence is the remote-sourced one, and the
local bucket is capped to 5 entries. -/
theorem remote_local_dedup (chainId : Int) (env : SearchEnv) (q a : String)
    (hsup : isChainSupported chainId = true)
    (hblank : jsTrim q ≠ "")
    (haddr : isAddrShape (jsTrim q) = false)
    (hlocal : a ∈ env.localTokens.map fun t => jsToLower t.address)
    (hremote : ((env.api (jsTrim q)).tokens.countP
        fun t => decide (jsToLower t.address = a)) = 1) :
    ((performSearch chainId env q).results.countP
        fun r => decide (r.metaAddress.map jsToLower = some a)) = 1 ∧
    (∀ r ∈ (performSearch chainId env q).results,
      r.metaAddress.map jsToLower = some a → r ∈ remoteResults chainId env q) ∧
    (localResults env q (remoteResults chainId env q)).length ≤ 5 := by
  have hres : (performSearch chainId env q).results = finalResults chainId env q := by
    simp [performSearch, hblank, haddr]
  have hrem : remoteResults chainId env q =
      ((env.api (jsTrim q)).tokens).map liquidityTokenToSearchResult := by
    simp [remoteResults, hsup]
  have hcount_rem : ((remoteResults chainId env q).countP
      fun r => decide (r.metaAddress.map jsToLower = some a)) = 1 := by
    rw [hrem, List.countP_map, ← hremote]
    apply List.countP_congr
    intro t _
    simp [liquidityTokenToSearchResult, Function.comp]
  have hpos : ∃ s ∈ remoteResults chainId env q,
      s.metaAddress.map jsToLower = some a := by
    have h0 : 0 < ((env.api (jsTrim q)).tokens.countP
        fun t => decide (jsToLower t.address = a)) := by
      rw [hremote]; omega
    obtain ⟨t0, ht0, hp0⟩ := List.countP_pos_iff.mp h0
    refine ⟨liquidityTokenToSearchResult t0, ?_, ?_⟩
    · rw [hrem]; exact List.mem_map_of_mem _ ht0
    · have ha0 := of_decide_eq_true hp0
      simp [liquidityTokenToSearchResult, ha0]
  have hlocals0 : ∀ r ∈ localResults env q (remoteResults chainId env q),
      ¬ (r.metaAddress.map jsToLower = some a) := by
    intro r hr hra
    obtain ⟨s0, hs0mem, hs0a⟩ := hpos
    exact localResults_dedup env q _ r hr s0 hs0mem (by rw [hs0a, hra])
  have hcount_loc : ((localResults env q (remoteResults chainId env q)).countP
      fun r => decide (r.metaAddress.map jsToLower = some a)) = 0 := by
    rw [List.countP_eq_zero]
    intro r hr
    simp only [decide_eq_true_eq]
    exact hlocals0 r hr
  have hcmd : (([cmdSwapResult, cmdHoldingsResult] : List SearchResult).countP
      fun r => decide (r.metaAddress.map jsToLower = some a)) = 0 := by
    simp [List.countP_cons, cmdSwapResult, cmdHoldingsResult]
  refine ⟨?_, ?_, ?_⟩
  · rw [hres, finalResults]
    by_cases hq : q.length < 2
    · rw [if_pos hq, List.countP_append, mergedResults, List.countP_append,
        hcount_rem, hcount_loc, hcmd]
    · rw [if_neg hq, mergedResults, List.countP_append, hcount_rem, hcount_loc]
  · intro r hr hra
    rw [hres, finalResults] at hr
    have hmem : r ∈ mergedResults chainId env q := by
      by_cases hq : q.length < 2
      · rw [if_pos hq] at hr
        rcases List.mem_append.mp hr with h1 | h2
        · exact h1
        · exfalso
          simp only [List.mem_cons, List.mem_singleton] at h2
          rcases h2 with rfl | rfl | h2
          · simp [cmdSwapResult] at hra
          · simp [cmdHoldingsResult] at hra
          · simp at h2
      · rwa [if_neg hq] at hr
    rw [mergedResults] at hmem
    rcases List.mem_append.mp hmem with h1 | h2
    · exact h1
    · exact absurd hra (hlocals0 r h2)
  · rw [localResults, List.length_map]
    refine le_trans (List.length_filter_le _ _) ?_
    rw [List.length_take]
    exact min_le_left 5 _

/-- The remote token of the dedup witness. -/
def c5RemoteTok : TokenWithPools :=
  { address := "0xabc", symbol := "ABC", name := "ABC Token"
    decimals := 18, tvlUSD := 10, volumeUSD := 2, pools := [] }

/-- Environment where the remote response and the local registry know the
same token address, with different casing. -/
def c5Env : SearchEnv :=
  { api := fun _ => { chainId := 1, tokens := [c5RemoteTok], error := none }
    localTokens :=
      [ { address := "0xAbC", symbol := "ABC", name := "ABC Token"
          ticker := none, logoURI := none, isTokenizedStock := false } ] }

/-- C5 witness: the shared address appears exactly once in the merged list. -/
theorem remote_local_dedup_witness :
    ("0xabc" ∈ c5Env.localTokens.map fun t => jsToLower t.address) ∧
    ((c5Env.api (jsTrim "ab")).tokens.countP
        fun t => decide (jsToLower t.address = "0xabc")) = 1 ∧
    ((performSearch 1 c5Env "ab").results.countP
        fun r => decide (r.metaAddress.map jsToLower = some "0xabc")) = 1 :=
  ⟨by decide, by decide,
   (remote_local_dedup 1 c5Env "ab" "0xabc" (by decide) (by decide) (by decide)
     (by decide) (by decide)).1⟩

/-- The token returned for the earlier query AA. -/
def c1TokA : TokenWithPools :=
  { address := "0xaa1", symbol := "AOLD", name := "Stale token"
    decimals := 18, tvlUSD := 1, volumeUSD := 1, pools := [] }

/-- The token returned for the later query AAB. -/
def c1TokB : TokenWithPools :=
  { address := "0xbb2", symbol := "BNEW", name := "Fresh token"
    decimals := 18, tvlUSD := 2, volumeUSD := 2, pools := [] }

/-- Environment of the supersession run (empty local registry). -/
def c1Env : SearchEnv :=
  { api := fun _ => { chainId := 1, tokens := [], error := none }
    localTokens := [] }

/-- Response of the network call issued for AA. -/
def c1RespA : LiquidityApiResponse := { chainId := 1, tokens := [c1TokA], error := none }

/-- Response of the network call issued for AAB. -/
def c1RespB : LiquidityApiResponse := { chainId := 1, tokens := [c1TokB], error := none }

/-- Session after issuing AA and then AAB (both suspended in flight). -/
def c1St2 : Session :=
  (issueSearch 1 c1Env (issueSearch 1 c1Env initialSession "AA").1 "AAB").1

/-- Session after the response for AAB arrives and renders. -/
def c1St3 : Session := arriveSearch c1Env c1St2 { gen := 1, rawQuery := "AAB" } c1RespB

/-- Session after the stale response for AA arrives last. -/
def c1St4 : Session := arriveSearch c1Env c1St3 { gen := 0, rawQuery := "AA" } c1RespA

/-- C1: supersession is not enforced — the `AbortController` of the AA
invocation is aborted when AAB is issued, yet because the abort signal is
never passed to the fetch nor consulted on arrival, the stale AA response
overwrites the already-rendered AAB results. -/
theorem supersession_stale_overwrite :
    (issueSearch 1 c1Env initialSession "AA").2 = some { gen := 0, rawQuery := "AA" } ∧
    (issueSearch 1 c1Env (issueSearch 1 c1Env initialSession "AA").1 "AAB").2 =
      some { gen := 1, rawQuery := "AAB" } ∧
    0 ∈ c1St2.abortedGens ∧
    c1St3.results = [liquidityTokenToSearchResult c1TokB] ∧
    c1St4.results = [liquidityTokenToSearchResult c1TokA] ∧
    c1St4.results ≠ c1St3.results := by
  decide

end VaultoSwap
